import Mathlib

/-!
Verification development for the hardware temperature monitor
(`cpu_temp_monitor.py`).

The Python program is shallowly embedded: the sampler/classifier state
machine (`HWTempMonitor.check_temperatures`, `HWTempMonitor.update_icon`),
the presentation helper (`create_temp_icon`), and the reading-source
adapter (`HardwareTemperatureReader._run_powershell` /
`get_temperatures`) become pure Lean functions over explicit state.
Python floats are modelled as rationals, `time.time()` values as
rationals, Python `None` as `Option.none` (or `JVal.null` at the JSON
level), and raised Python exceptions as `Except.error`.
-/

/-- Floor of a rational, written with `Int.fdiv` (floor division of the
numerator by the denominator) so that it evaluates by kernel
reduction. -/
def ratFloor (q : ℚ) : ℤ :=
  Int.fdiv q.num q.den

/-- Subtraction of rationals, written out on numerators and denominators
so that it evaluates by kernel reduction (`Rat.sub` is irreducible);
`ratSub_eq` identifies it with `Sub.sub`. -/
def ratSub (a b : ℚ) : ℚ :=
  mkRat (a.num * b.den - b.num * a.den) (a.den * b.den)

theorem ratSub_eq (a b : ℚ) : ratSub a b = a - b := by
  have ha : ((a.den : ℚ)) ≠ 0 := by positivity
  have hb : ((b.den : ℚ)) ≠ 0 := by positivity
  conv_rhs => rw [← Rat.num_div_den a, ← Rat.num_div_den b]
  rw [div_sub_div _ _ ha hb, ratSub, Rat.mkRat_eq_div]
  push_cast
  ring_nf

/-- Python `format(q, ".0f")` rounding: round half to even, as used by the
f-string `:.0f` conversions throughout the source. -/
def pyRound0 (q : ℚ) : ℤ :=
  let f := ratFloor q
  let r := ratSub q (mkRat f 1)
  if r < mkRat 1 2 then f
  else if mkRat 1 2 < r then f + 1
  else if f % 2 = 0 then f else f + 1

/-- Renders `f"{q:.0f}"` (without the suffix text). -/
def pyFmt0 (q : ℚ) : String :=
  toString (pyRound0 q)

/-- Python `int()` on a float: truncation toward zero (NOT rounding).
Used by `create_temp_icon` for the glyph's numeric label. -/
def pyTrunc (q : ℚ) : ℤ :=
  if 0 ≤ q then ratFloor q else -ratFloor (-q)

/-- One entry of the `ssds` list in the dict returned by
`HardwareTemperatureReader.get_temperatures` (only entries whose helper
record carried a temperature are kept, so `temp` is total here). -/
structure SsdEntry where
  name : String
  temp : ℚ
  deriving DecidableEq

/-- The non-empty dict returned by `get_temperatures` on success:
keys `cpu`, `cpu_name`, `gpu`, `gpu_name`, `ssds`.  The empty dict `{}`
(poll failure / helper non-success) is modelled as `Option.none` at the
use sites, so `Temps` itself always has all five keys present. -/
structure Temps where
  cpu : Option ℚ
  cpu_name : String
  gpu : Option ℚ
  gpu_name : String
  ssds : List SsdEntry
  deriving DecidableEq

/-- `self.temps.get('cpu')`: `none` both for the empty dict and for a
present key holding `None`. -/
def tempsCpu : Option Temps → Option ℚ
  | none => none
  | some t => t.cpu

/-- `self.temps.get('gpu')`. -/
def tempsGpu : Option Temps → Option ℚ
  | none => none
  | some t => t.gpu

/-- `self.temps.get('ssds', [])`. -/
def tempsSsds : Option Temps → List SsdEntry
  | none => []
  | some t => t.ssds

/-- `TEMP_CRITICAL_CPU = 90` (module constant). -/
def TEMP_CRITICAL_CPU : ℚ := 90

/-- `TEMP_CRITICAL_GPU = 85` (module constant). -/
def TEMP_CRITICAL_GPU : ℚ := 85

/-- `TEMP_CRITICAL_SSD = 70` (module constant). -/
def TEMP_CRITICAL_SSD : ℚ := 70

/-- `NOTIFICATION_COOLDOWN = 60` seconds (module constant). -/
def NOTIFICATION_COOLDOWN : ℚ := 60

/-- The mutable fields of `HWTempMonitor` that the tick logic reads and
writes: `self.temps`, `self.last_notification_time`, `self.error_shown`,
`self.critical_count`. -/
structure MonitorState where
  temps : Option Temps
  last_notification_time : ℚ
  error_shown : Bool
  critical_count : ℕ
  deriving DecidableEq

/-- `HWTempMonitor.__init__`: `temps = {}`, `last_notification_time = 0`
(so "never alerted" is timestamp 0), `error_shown = False`,
`critical_count = 0`. -/
def MonitorState.start : MonitorState :=
  { temps := none
    last_notification_time := 0
    error_shown := false
    critical_count := 0 }

/-- Result of one `check_temperatures` call: the updated monitor state,
whether the poll-failure log line was printed this tick, and the
notification (title, body) handed to `send_notification`, if any. -/
structure TickResult where
  state : MonitorState
  printedError : Bool
  notification : Option (String × String)
  deriving DecidableEq

/-- Lines 392-405 of `check_temperatures`: the `critical_components`
list — `"CPU: {v:.0f}°C"` when the CPU value is present and at/above 90,
then `"GPU: {v:.0f}°C"` when the GPU value is present and at/above 85,
then one `"SSD: {v:.0f}°C"` line per stored storage entry at/above 70,
in original order. -/
def criticalComponents (t : Option Temps) : List String :=
  (match tempsCpu t with
    | some v => if TEMP_CRITICAL_CPU ≤ v then ["CPU: " ++ pyFmt0 v ++ "°C"] else []
    | none => []) ++
  (match tempsGpu t with
    | some v => if TEMP_CRITICAL_GPU ≤ v then ["GPU: " ++ pyFmt0 v ++ "°C"] else []
    | none => []) ++
  ((tempsSsds t).filter (fun s => TEMP_CRITICAL_SSD ≤ s.temp)).map
    (fun s => "SSD: " ++ pyFmt0 s.temp ++ "°C")

/-- Lines 392-421 of `check_temperatures`: everything after the
error-logging prologue.  `s.temps` / `s.error_shown` have already been
updated; `now` is `time.time()`.  Increments `critical_count` when
`critical_components` is non-empty, resets it to 0 otherwise, and fires
the critical notification exactly when the updated counter is at least 2
and at least `NOTIFICATION_COOLDOWN` seconds have passed since
`last_notification_time`; firing also stores `now` into
`last_notification_time`. -/
def tickCritical (s : MonitorState) (now : ℚ) : TickResult :=
  let comps := criticalComponents s.temps
  let cc := if comps = [] then 0 else s.critical_count + 1
  if 2 ≤ cc ∧ NOTIFICATION_COOLDOWN ≤ ratSub now s.last_notification_time then
    { state := { s with critical_count := cc, last_notification_time := now }
      printedError := false
      notification := some ("🔥 CRITICAL TEMPERATURE!",
        String.intercalate "\n" comps ++ "\nCheck your system cooling!") }
  else
    { state := { s with critical_count := cc }
      printedError := false
      notification := none }

/-- `HWTempMonitor.check_temperatures` (lines 381-421).  Inputs: the
current monitor state, the reader's `last_error` value after this tick's
poll, the current time, and the poll result (`none` models the empty
dict `{}`).  The first failing tick after a success (`error_shown`
still false) logs once — only when `last_error` is set — flips
`error_shown`, and RETURNS EARLY, touching no other state; a successful
tick clears `error_shown` and every non-early tick falls through to the
critical-temperature logic. -/
def check_temperatures (s : MonitorState) (lastError : Option String)
    (now : ℚ) (poll : Option Temps) : TickResult :=
  let s1 := { s with temps := poll }
  if poll.isNone && !s.error_shown then
    { state := { s1 with error_shown := true }
      printedError := lastError.isSome
      notification := none }
  else
    tickCritical (if poll.isSome then { s1 with error_shown := false } else s1) now

/-- Background colours used by `create_temp_icon`:
grey = (108, 117, 125), red = (220, 53, 69), amber = (255, 193, 7),
green = (40, 167, 69). -/
inductive Color where
  | grey
  | red
  | amber
  | green
  deriving DecidableEq

/-- Semantic content of the rendered tray icon: background colour and
the numeric text drawn in its centre. -/
structure GlyphSpec where
  color : Color
  label : String
  deriving DecidableEq

/-- `create_temp_icon(temp, warning, critical, no_data)` (lines 228-266),
reduced to its semantic output: colour priority is no-data, then
critical, then warning, then normal; the label is `"?"` when `temp` is
`None` and `f"{int(temp)}"` otherwise. -/
def create_temp_icon (temp : Option ℚ) (warning critical no_data : Bool) : GlyphSpec :=
  { color :=
      if no_data then Color.grey
      else if critical then Color.red
      else if warning then Color.amber
      else Color.green
    label :=
      match temp with
      | none => "?"
      | some v => toString (pyTrunc v) }

/-- Lines 357-360 of `update_icon`: `display_temp = temps.get('cpu')`,
falling back to `temps.get('gpu')` when that is `None`. -/
def display_temp (t : Option Temps) : Option ℚ :=
  match tempsCpu t with
  | some v => some v
  | none => tempsGpu t

/-- Lines 362-366 of `update_icon`: the glyph produced for the stored
reading.  `warning` is `display_temp >= 80` (fixed literal 80),
`critical` is `display_temp >= TEMP_CRITICAL_CPU`, both false when no
display value exists. -/
def update_icon_glyph (t : Option Temps) : GlyphSpec :=
  let d := display_temp t
  let no_data := d.isNone
  let warning := match d with
    | some v => decide ((80 : ℚ) ≤ v)
    | none => false
  let critical := match d with
    | some v => decide (TEMP_CRITICAL_CPU ≤ v)
    | none => false
  create_temp_icon d warning critical no_data

/-- Line 376 of `update_icon`: the local `name` variable,
`ssd['name'][:15] if len(ssd['name']) > 15 else ssd['name']`.  The
source computes this value but never uses it (dead store): the tooltip
line appended on line 377 is `f"SSD: {ssd['temp']:.0f}°C"`, without the
device label. -/
def tooltipSsdName (n : String) : String :=
  if 15 < n.length then n.take 15 else n

/-- Lines 370-377 of `update_icon`: the tooltip `lines` list — a CPU
line if present, a GPU line if present, then one `"SSD: N°C"` line per
storage entry in original order (NOT containing the device label; see
`tooltipSsdName`). -/
def tooltip_lines (t : Option Temps) : List String :=
  (match tempsCpu t with
    | some v => ["CPU: " ++ pyFmt0 v ++ "°C"]
    | none => []) ++
  (match tempsGpu t with
    | some v => ["GPU: " ++ pyFmt0 v ++ "°C"]
    | none => []) ++
  (tempsSsds t).map (fun s => "SSD: " ++ pyFmt0 s.temp ++ "°C")

/-- Line 379 of `update_icon`: `" | ".join(lines) if lines else "No data"`. -/
def tooltip_title (t : Option Temps) : String :=
  let lines := tooltip_lines t
  if lines = [] then "No data" else String.intercalate " | " lines

/-- Mutable fields of `HardwareTemperatureReader`: `self.last_error`
(initially `None`, never cleared) and `self.dll_available` (initialised
from `DLL_PATH.exists()` in `__init__`). -/
structure ReaderState where
  last_error : Option String
  dll_available : Bool
  deriving DecidableEq

/-- `HardwareTemperatureReader.__init__` given the DLL-existence check
at construction time. -/
def ReaderState.start (dllExists : Bool) : ReaderState :=
  { last_error := none, dll_available := dllExists }

/-- A JSON value as produced by `json.loads` on the helper's stdout.
`null` doubles as the model of Python `None`. -/
inductive JVal where
  | null
  | bool (b : Bool)
  | num (q : ℚ)
  | str (s : String)
  | arr (elems : List JVal)
  | obj (fields : List (String × JVal))

/-- Python truthiness of a decoded JSON value (`not data`,
`not data.get('success')`). -/
def pyTruthy : JVal → Bool
  | JVal.null => false
  | JVal.bool b => b
  | JVal.num q => decide (q ≠ 0)
  | JVal.str s => !s.isEmpty
  | JVal.arr xs => !xs.isEmpty
  | JVal.obj fs => !fs.isEmpty

/-- Dict lookup (first matching key; Python dicts have unique keys). -/
def jobjGet (fs : List (String × JVal)) (k : String) : Option JVal :=
  (fs.find? (fun p => p.1 == k)).map (fun p => p.2)

/-- Python `v.get(k, dflt)`: succeeds only when `v` is a dict (a key
present with value `null` yields `null`, not the default); on any other
receiver it raises `AttributeError`, modelled as `Except.error`. -/
def pyGet (v : JVal) (k : String) (dflt : JVal) : Except String JVal :=
  match v with
  | JVal.obj fs => Except.ok ((jobjGet fs k).getD dflt)
  | _ => Except.error "AttributeError: object has no attribute get"

/-- Python iteration `for x in v`: lists yield elements, strings yield
one-character strings, dicts yield their keys, and anything else raises
`TypeError`. -/
def pyIter (v : JVal) : Except String (List JVal) :=
  match v with
  | JVal.arr xs => Except.ok xs
  | JVal.str s => Except.ok (s.toList.map (fun c => JVal.str (String.mk [c])))
  | JVal.obj fs => Except.ok (fs.map (fun p => JVal.str p.1))
  | _ => Except.error "TypeError: object is not iterable"

/-- One appended element of `result['ssds']` at the raw JSON level: the
values of `ssd.get('name', 'SSD')` and `ssd.get('temp')`. -/
structure RawSsd where
  name : JVal
  temp : JVal

/-- The dict built by `get_temperatures` on the success path, with its
values still raw JSON (the source performs no numeric validation). -/
structure RawTemps where
  cpu : JVal
  cpu_name : JVal
  gpu : JVal
  gpu_name : JVal
  ssds : List RawSsd

/-- Lines 212-217 of `get_temperatures`: the loop over
`data.get('ssds', [])`, appending an entry exactly when
`ssd.get('temp') is not None` (the source calls `.get('temp')` once for
the test and again for the stored value). -/
def buildSsds : List JVal → Except String (List RawSsd)
  | [] => Except.ok []
  | ssd :: rest => do
    let t ← pyGet ssd "temp" JVal.null
    match t with
    | JVal.null => buildSsds rest
    | _ => do
      let n ← pyGet ssd "name" (JVal.str "SSD")
      let t2 ← pyGet ssd "temp" JVal.null
      let tail ← buildSsds rest
      Except.ok ({ name := n, temp := t2 } :: tail)

/-- What `_run_powershell` does once the DLL gate has been passed and
the subprocess has been launched: `HelperStdout` describes the helper's
stdout after `.strip()` (`empty`, non-JSON `invalid` with the decode
error's text, or a decoded value). -/
inductive HelperStdout where
  | empty
  | invalid (msg : String)
  | valid (doc : JVal)

/-- Outcome of the `subprocess.run` call inside `_run_powershell`:
a 10-second timeout, some other raised exception, or a completed run
with the given stdout content and raw stderr. -/
inductive HelperOutcome where
  | timeout
  | exn (msg : String)
  | completed (stdout : HelperStdout) (stderr : String)

/-- Lines 163-195 of `_run_powershell`: the `try` body and its handlers.
Non-empty stdout is parsed (a decode failure records
`"JSON Parse Error: ..."`); empty stdout records stripped stderr as the
error when non-empty; a timeout records `"Timeout reading temperature"`;
any other exception records its message.  Only a successful parse
returns a document. -/
def run_powershell_body (r : ReaderState) (o : HelperOutcome) :
    ReaderState × Option JVal :=
  match o with
  | HelperOutcome.timeout =>
      ({ r with last_error := some "Timeout reading temperature" }, none)
  | HelperOutcome.exn m =>
      ({ r with last_error := some m }, none)
  | HelperOutcome.completed HelperStdout.empty stderr =>
      if stderr.trim = "" then (r, none)
      else ({ r with last_error := some stderr.trim }, none)
  | HelperOutcome.completed (HelperStdout.invalid m) _ =>
      ({ r with last_error := some ("JSON Parse Error: " ++ m) }, none)
  | HelperOutcome.completed (HelperStdout.valid d) _ =>
      (r, some d)

/-- `HardwareTemperatureReader._run_powershell` (lines 157-195).
`dllNow` is the result `DLL_PATH.exists()` would give at this call: it
is consulted only when `dll_available` is cached false, in which case
the cache is refreshed from it and, when still false, the poll gives up
(returning `None` without touching `last_error`). -/
def run_powershell (r : ReaderState) (dllNow : Bool) (o : HelperOutcome) :
    ReaderState × Option JVal :=
  if r.dll_available then run_powershell_body r o
  else if dllNow then run_powershell_body { r with dll_available := true } o
  else ({ r with dll_available := false }, none)

/-- Lines 201-219 of `get_temperatures` applied to a decoded document:
falsy documents and documents whose `success` entry is falsy yield the
empty dict (`none`); otherwise the result dict is built via repeated
`.get` calls, each of which raises on a non-dict receiver. -/
def get_temperatures_body (d : JVal) : Except String (Option RawTemps) :=
  if !pyTruthy d then Except.ok none
  else do
    let sv ← pyGet d "success" JVal.null
    if !pyTruthy sv then Except.ok none
    else do
      let cpuObj ← pyGet d "cpu" (JVal.obj [])
      let cpuTemp ← pyGet cpuObj "temp" JVal.null
      let cpuName ← pyGet cpuObj "name" (JVal.str "CPU")
      let gpuObj ← pyGet d "gpu" (JVal.obj [])
      let gpuTemp ← pyGet gpuObj "temp" JVal.null
      let gpuName ← pyGet gpuObj "name" (JVal.str "GPU")
      let ssdsVal ← pyGet d "ssds" (JVal.arr [])
      let items ← pyIter ssdsVal
      let ssds ← buildSsds items
      Except.ok (some { cpu := cpuTemp, cpu_name := cpuName,
                        gpu := gpuTemp, gpu_name := gpuName, ssds := ssds })

/-- `HardwareTemperatureReader.get_temperatures` (lines 197-219): runs
the helper, returns the empty dict (`Except.ok none`) when no document
came back or the document/`success` flag is falsy, and otherwise builds
the result dict — propagating, as `Except.error`, any `AttributeError`
or `TypeError` the `.get` chain raises on unexpected document shapes. -/
def get_temperatures (r : ReaderState) (dllNow : Bool) (o : HelperOutcome) :
    ReaderState × Except String (Option RawTemps) :=
  let p := run_powershell r dllNow o
  match p.2 with
  | none => (p.1, Except.ok none)
  | some d => (p.1, get_temperatures_body d)

/-- Tests whether a JSON value is a dict. -/
def isObj : JVal → Bool
  | JVal.obj _ => true
  | _ => false

/-- Tests whether a JSON value is a list all of whose elements are
dicts. -/
def isArrOfObjs : JVal → Bool
  | JVal.arr xs => xs.all isObj
  | _ => false

/-- A successful document of the shape `get_temperatures` expects (§6 of
the helper contract): `cpu`/`gpu` absent or dicts, `ssds` absent or a
list of dicts. -/
def wellShapedDoc (d : JVal) : Bool :=
  match d with
  | JVal.obj fs =>
      isObj ((jobjGet fs "cpu").getD (JVal.obj [])) &&
      isObj ((jobjGet fs "gpu").getD (JVal.obj [])) &&
      isArrOfObjs ((jobjGet fs "ssds").getD (JVal.arr []))
  | _ => false

/-- Documents on which the `.get` chain of `get_temperatures` cannot
raise: falsy documents, dicts with a falsy `success`, and well-shaped
dicts. -/
def safeDoc (d : JVal) : Bool :=
  !pyTruthy d ||
  (match d with
   | JVal.obj fs =>
       !pyTruthy ((jobjGet fs "success").getD JVal.null) || wellShapedDoc d
   | _ => false)

/-- A raw storage entry that carries an actual temperature value
(`ssd.get('temp') is not None`). -/
def hasTemp (s : RawSsd) : Bool :=
  match s.temp with
  | JVal.null => false
  | _ => true

/-- Reading used for claim C10: CPU at a harmless 50°C, no GPU, one
storage device at 75°C (above the 70°C storage critical threshold). -/
def c10Temps : Temps :=
  { cpu := some 50, cpu_name := "CPU", gpu := none, gpu_name := "GPU",
    ssds := [{ name := "Samsung SSD", temp := 75 }] }

/-- Reading used for claim C9: CPU at 79.6°C. -/
def c9Temps : Temps :=
  { cpu := some (mkRat 398 5), cpu_name := "CPU", gpu := none,
    gpu_name := "GPU", ssds := [] }

/-- Reading used for claim C5: a single storage device with a long
label. -/
def c5Temps : Temps :=
  { cpu := none, cpu_name := "CPU", gpu := none, gpu_name := "GPU",
    ssds := [{ name := "Samsung SSD 990 PRO 2TB", temp := 72 }] }

/-- Reading used for claim C2's counterexample: a critical CPU, giving a
tick history with `critical_count = 1`. -/
def c2Temps : Temps :=
  { cpu := some 95, cpu_name := "CPU", gpu := none, gpu_name := "GPU",
    ssds := [] }

/-- Monitor state for claim C2's counterexample: one critical tick has
just been counted and no poll failure has been logged. -/
def c2State : MonitorState :=
  { temps := some c2Temps, last_notification_time := 0,
    error_shown := false, critical_count := 1 }

/-- Reading used for claim C6's counterexample: a harmless successful
reading. -/
def c6Temps : Temps :=
  { cpu := some 45, cpu_name := "CPU", gpu := none, gpu_name := "GPU",
    ssds := [] }


/-- C10: there is a reading on which a critical alert fires while the
glyph tier is Normal (green).  With CPU 50°C and one storage device at
75°C, repeated on two consecutive ticks starting from the initial state
(cooldown elapsed, since `last_notification_time` starts at 0), the
first tick fires nothing, the second fires an alert whose body names
the SSD — while the glyph for the very same reading is green, because
glyph severity uses only the CPU/GPU display value against the fixed
80/90 boundaries. -/
theorem claim_C10_alert_green_glyph :
    (check_temperatures MonitorState.start none 100 (some c10Temps)).notification
        = none ∧
    (check_temperatures
        (check_temperatures MonitorState.start none 100 (some c10Temps)).state
        none 103 (some c10Temps)).notification
        = some ("🔥 CRITICAL TEMPERATURE!", "SSD: 75°C\nCheck your system cooling!") ∧
    (update_icon_glyph (some c10Temps)).color = Color.green := by
  decide

/-- C9 counterexample: the glyph's numeric label is produced by Python
`int()`, which truncates toward zero, so a display value of 79.6
renders as "79", not "80" as the claim's rounding example requires. -/
theorem claim_C9_counterexample :
    (update_icon_glyph (some c9Temps)).label = "79" ∧
    (update_icon_glyph (some c9Temps)).label ≠ "80" := by
  decide

/-- C9 amended: the glyph's numeric label is "?" when the display value
is absent and otherwise the value truncated toward zero (e.g. 79.6
renders as "79"), for every combination of the severity flags. -/
theorem claim_C9_amended (temp : Option ℚ) (warning critical no_data : Bool) :
    (create_temp_icon temp warning critical no_data).label =
      match temp with
      | none => "?"
      | some v => toString (if 0 ≤ v then ratFloor v else -ratFloor (-v)) := by
  cases temp <;> rfl

/-- C5 (code bug): the source computes the 15-character truncation of
the storage device's label into the local `name` (line 376) but never
uses it — the emitted tooltip line is just `"SSD: N°C"`.  At the
failing input (a device labelled "Samsung SSD 990 PRO 2TB" at 72°C) the
truncated label "Samsung SSD 990" is computed yet the tooltip is
"SSD: 72°C" with no label in it. -/
theorem claim_C5_label_dropped :
    tooltip_lines (some c5Temps) = ["SSD: 72°C"] ∧
    tooltipSsdName "Samsung SSD 990 PRO 2TB" = "Samsung SSD 990" ∧
    tooltip_title (some c5Temps) = "SSD: 72°C" := by
  decide

/-- C2 counterexample: on the FIRST failing tick after a success
(`error_shown` still false) `check_temperatures` returns early after
flipping `error_shown`, so `critical_count` is NOT reset to 0: from a
state with `critical_count = 1` an empty poll leaves it at 1, although
the claim requires a reset on every tick with an empty reading. -/
theorem claim_C2_counterexample :
    (check_temperatures c2State none 6 none).state.critical_count = 1 ∧
    (check_temperatures c2State none 6 none).state.critical_count ≠ 0 := by
  decide

/-- C2 amended: `critical_count` is incremented when some component is
at/above its critical threshold and reset to 0 otherwise on every tick
that reaches the counting step; the one exception is the first
failing/empty tick after a non-failing one (`error_shown` false), which
returns early from the error-logging prologue and leaves the counter
unchanged.  Consecutive failing ticks (`error_shown` already true) do
fall through and reset it to 0. -/
theorem claim_C2_amended (s : MonitorState) (lastError : Option String)
    (now : ℚ) (poll : Option Temps) :
    (check_temperatures s lastError now poll).state.critical_count =
      if poll.isNone && !s.error_shown then s.critical_count
      else if criticalComponents poll = [] then 0
      else s.critical_count + 1 := by
  cases poll <;> cases he : s.error_shown <;>
    simp only [check_temperatures, tickCritical, he, Option.isNone_none,
      Option.isNone_some, Option.isSome_none, Option.isSome_some,
      Bool.not_false, Bool.not_true, Bool.and_true, Bool.and_false,
      Bool.true_and, Bool.false_and, if_true, if_false, Bool.false_eq_true,
      ite_false, ite_true] <;>
    split_ifs <;> simp_all

/-- C6 counterexample: the poll-failure log line is printed only when
the reader has recorded a cause (`last_error` non-None).  After a
successful tick, a failing tick whose poll recorded no cause (e.g. the
helper emitted `{"success": false}`, which sets nothing) prints no log,
although the claim requires a log on the first failing tick after a
success. -/
theorem claim_C6_counterexample :
    (check_temperatures MonitorState.start none 0 (some c6Temps)).state.error_shown
        = false ∧
    (check_temperatures
        (check_temperatures MonitorState.start none 0 (some c6Temps)).state
        none 3 none).printedError = false := by
  decide

/-- C6 amended: the failure-transition branch is taken exactly once per
failure transition — the log line is printed precisely on a failing
tick whose predecessor state has `error_shown` false AND whose poll has
a recorded cause (`last_error` non-None); consecutive failing ticks
never print again (`error_shown` holds), and `error_shown` after any
tick equals "this tick's poll failed", so the next successful read
clears it.  Hence five consecutive failing ticks print at most once, on
the first. -/
theorem claim_C6_amended (s : MonitorState) (lastError : Option String)
    (now : ℚ) (poll : Option Temps) :
    (check_temperatures s lastError now poll).printedError
        = (poll.isNone && !s.error_shown && lastError.isSome) ∧
    (check_temperatures s lastError now poll).state.error_shown = poll.isNone := by
  cases poll <;> cases he : s.error_shown <;>
    simp only [check_temperatures, tickCritical, he, Option.isNone_none,
      Option.isNone_some, Option.isSome_none, Option.isSome_some,
      Bool.not_false, Bool.not_true, Bool.and_true, Bool.and_false,
      Bool.true_and, Bool.false_and, Bool.false_eq_true,
      ite_false, ite_true] <;>
    (try split_ifs) <;> simp_all


/-- Helper: if `tickCritical` fires a notification then the critical
list was non-empty, the stored counter is the incremented value (which
the guard required to be at least 2), and the cooldown had elapsed. -/
theorem tickCritical_guard (s : MonitorState) (now : ℚ)
    (h : (tickCritical s now).notification.isSome = true) :
    criticalComponents s.temps ≠ [] ∧
    (tickCritical s now).state.critical_count = s.critical_count + 1 ∧
    2 ≤ s.critical_count + 1 ∧
    NOTIFICATION_COOLDOWN ≤ now - s.last_notification_time := by
  by_cases hc : criticalComponents s.temps = []
  · exfalso
    simp only [tickCritical, hc, ite_true, if_true] at h
    norm_num at h
  · by_cases hf : (2 ≤ s.critical_count + 1 ∧
        NOTIFICATION_COOLDOWN ≤ ratSub now s.last_notification_time)
    · refine ⟨hc, ?_, hf.1, by rw [← ratSub_eq]; exact hf.2⟩
      simp only [tickCritical, hc, ite_false, if_neg hc, hf, if_true, ite_true]
      split <;> rfl
    · exfalso
      simp only [tickCritical, hc, ite_false, if_neg hc] at h
      rw [if_neg hf] at h
      simp at h

/-- Helper: when `tickCritical` fires, it writes `now` into
`last_notification_time`, stores the incremented counter, leaves the
other fields as they entered `tickCritical`, and prints nothing. -/
theorem tickCritical_fire_frame (s : MonitorState) (now : ℚ)
    (h : (tickCritical s now).notification.isSome = true) :
    (tickCritical s now).state.last_notification_time = now ∧
    (tickCritical s now).state.critical_count = s.critical_count + 1 ∧
    (tickCritical s now).state.error_shown = s.error_shown ∧
    (tickCritical s now).state.temps = s.temps ∧
    (tickCritical s now).printedError = false := by
  by_cases hc : criticalComponents s.temps = []
  · exfalso
    simp only [tickCritical, hc, ite_true, if_true] at h
    norm_num at h
  · by_cases hf : (2 ≤ s.critical_count + 1 ∧
        NOTIFICATION_COOLDOWN ≤ ratSub now s.last_notification_time)
    · simp only [tickCritical, hc, ite_false, if_neg hc, hf, if_true, ite_true]
      exact ⟨rfl, rfl, rfl, rfl, rfl⟩
    · exfalso
      simp only [tickCritical, hc, ite_false, if_neg hc] at h
      rw [if_neg hf] at h
      simp at h

/-- Helper: a successful poll clears `error_shown`, stores the reading,
and falls through to the critical-temperature logic. -/
theorem check_temperatures_some (s : MonitorState) (lastError : Option String)
    (now : ℚ) (t : Temps) :
    check_temperatures s lastError now (some t)
      = tickCritical
          ⟨some t, s.last_notification_time, false, s.critical_count⟩ now := rfl

/-- Helper: a failing poll with `error_shown` already set falls through
to the critical-temperature logic with the empty reading stored. -/
theorem check_temperatures_none_shown (s : MonitorState)
    (lastError : Option String) (now : ℚ) (he : s.error_shown = true) :
    check_temperatures s lastError now none
      = tickCritical
          ⟨none, s.last_notification_time, true, s.critical_count⟩ now := by
  simp [check_temperatures, he]

/-- Helper: the first failing poll after a success takes the
early-return branch: it only stores the empty reading, sets
`error_shown`, and reports whether the log line was printed. -/
theorem check_temperatures_none_new (s : MonitorState)
    (lastError : Option String) (now : ℚ) (he : s.error_shown = false) :
    check_temperatures s lastError now none
      = { state := ⟨none, s.last_notification_time, true, s.critical_count⟩,
          printedError := lastError.isSome,
          notification := none } := by
  simp [check_temperatures, he]

/-- C1: whenever a tick delivers a critical alert, the set of components
at/above their critical thresholds for this tick's reading is non-empty,
the consecutive-critical counter checked by the guard (this tick's
incremented value, which is also the post-tick stored value) is at least
2, and at least `NOTIFICATION_COOLDOWN` = 60 seconds have elapsed since
`last_notification_time` ("never" being the initial timestamp 0, per
`MonitorState.start`). -/
theorem claim_C1_alert_guard (s : MonitorState) (lastError : Option String)
    (now : ℚ) (poll : Option Temps)
    (h : (check_temperatures s lastError now poll).notification.isSome = true) :
    criticalComponents poll ≠ [] ∧
    (check_temperatures s lastError now poll).state.critical_count
        = s.critical_count + 1 ∧
    2 ≤ s.critical_count + 1 ∧
    NOTIFICATION_COOLDOWN ≤ now - s.last_notification_time := by
  cases poll with
  | some t =>
    rw [check_temperatures_some] at h ⊢
    exact tickCritical_guard _ now h
  | none =>
    cases he : s.error_shown with
    | false =>
      rw [check_temperatures_none_new s lastError now he] at h
      simp at h
    | true =>
      rw [check_temperatures_none_shown s lastError now he] at h
      exact absurd rfl (tickCritical_guard _ now h).1

/-- Reading used for claim C1's witness: CPU at 95°C. -/
def c1wTemps : Temps :=
  { cpu := some 95, cpu_name := "CPU", gpu := none, gpu_name := "GPU",
    ssds := [] }

/-- Monitor state for claim C1's witness: one critical tick already
counted, no alert delivered yet. -/
def c1wState : MonitorState :=
  { temps := some c1wTemps, last_notification_time := 0,
    error_shown := false, critical_count := 1 }

/-- Witness for C1: from `c1wState` (counter 1, last alert "never"), a
second consecutive critical reading at time 70 delivers an alert, and
the guard conditions hold there. -/
theorem claim_C1_witness :
    criticalComponents (some c1wTemps) ≠ [] ∧
    (check_temperatures c1wState none 70 (some c1wTemps)).state.critical_count
        = c1wState.critical_count + 1 ∧
    2 ≤ c1wState.critical_count + 1 ∧
    NOTIFICATION_COOLDOWN ≤ 70 - c1wState.last_notification_time :=
  claim_C1_alert_guard c1wState none 70 (some c1wTemps) (by decide)

/-- C3: on a tick that fires an alert, the tick stores the current time
into `last_notification_time`, and the stored counter is exactly this
tick's incremented value `critical_count + 1` (firing does not reset or
otherwise change it); the only other fields written are what the tick
already wrote before deciding to fire (`temps := poll`,
`error_shown := false`, a firing tick having a non-empty reading), and
no error log is printed. -/
theorem claim_C3_fire_frame (s : MonitorState) (lastError : Option String)
    (now : ℚ) (poll : Option Temps)
    (h : (check_temperatures s lastError now poll).notification.isSome = true) :
    (check_temperatures s lastError now poll).state.last_notification_time
        = now ∧
    (check_temperatures s lastError now poll).state.critical_count
        = s.critical_count + 1 ∧
    (check_temperatures s lastError now poll).state.error_shown = false ∧
    (check_temperatures s lastError now poll).state.temps = poll ∧
    (check_temperatures s lastError now poll).printedError = false := by
  cases poll with
  | some t =>
    rw [check_temperatures_some] at h ⊢
    exact tickCritical_fire_frame _ now h
  | none =>
    cases he : s.error_shown with
    | false =>
      rw [check_temperatures_none_new s lastError now he] at h
      simp at h
    | true =>
      rw [check_temperatures_none_shown s lastError now he] at h
      exact absurd rfl (tickCritical_guard _ now h).1

/-- Reading used for claim C3's witness: CPU at 92°C. -/
def c3wTemps : Temps :=
  { cpu := some 92, cpu_name := "CPU", gpu := none, gpu_name := "GPU",
    ssds := [] }

/-- Monitor state for claim C3's witness. -/
def c3wState : MonitorState :=
  { temps := some c3wTemps, last_notification_time := 0,
    error_shown := false, critical_count := 1 }

/-- Witness for C3: a second consecutive critical reading at time 61
fires, and the frame conditions hold there. -/
theorem claim_C3_witness :
    (check_temperatures c3wState none 61 (some c3wTemps)).state.last_notification_time
        = 61 ∧
    (check_temperatures c3wState none 61 (some c3wTemps)).state.critical_count
        = c3wState.critical_count + 1 ∧
    (check_temperatures c3wState none 61 (some c3wTemps)).state.error_shown
        = false ∧
    (check_temperatures c3wState none 61 (some c3wTemps)).state.temps
        = some c3wTemps ∧
    (check_temperatures c3wState none 61 (some c3wTemps)).printedError = false :=
  claim_C3_fire_frame c3wState none 61 (some c3wTemps) (by decide)

/-- C4: for every stored reading the glyph's display value is the CPU
temperature if present, else the GPU temperature if present, else
absent; and the glyph's background tier is grey (NoData) when the
display value is absent, red (Critical) when it is at/above 90, amber
(Warning) when it is at/above 80, and green (Normal) otherwise — using
the fixed 80/90 boundaries even when the displayed value is the GPU
temperature. -/
theorem claim_C4_glyph_tier (t : Option Temps) :
    display_temp t
        = (match tempsCpu t with
            | some v => some v
            | none => tempsGpu t) ∧
    (update_icon_glyph t).color
        = (match display_temp t with
            | none => Color.grey
            | some v =>
                if (90 : ℚ) ≤ v then Color.red
                else if (80 : ℚ) ≤ v then Color.amber
                else Color.green) := by
  refine ⟨rfl, ?_⟩
  cases hd : display_temp t with
  | none => simp [update_icon_glyph, hd, create_temp_icon]
  | some v =>
    simp only [update_icon_glyph, hd, create_temp_icon, Option.isNone_some]
    by_cases h90 : (90 : ℚ) ≤ v <;> by_cases h80 : (80 : ℚ) ≤ v <;>
      simp [h90, h80, TEMP_CRITICAL_CPU]

/-- C8: the DLL's presence is cached at construction
(`ReaderState.start`); while the cache says absent, every poll
re-checks existence (`dllNow`) before giving up, refreshing the cache —
so a poll after the DLL appears proceeds and hands back the helper's
document without a restart; once the cache says present the existence
check is never consulted again (the call is `run_powershell_body`,
which never reads or changes `dll_available`). -/
theorem claim_C8_dll_cache (r : ReaderState) (dllNow : Bool)
    (o : HelperOutcome) :
    ((ReaderState.start dllNow).dll_available = dllNow) ∧
    (r.dll_available = false → dllNow = false →
        run_powershell r dllNow o = ({ r with dll_available := false }, none)) ∧
    (r.dll_available = false → dllNow = true →
        run_powershell r dllNow o
          = run_powershell_body { r with dll_available := true } o) ∧
    (r.dll_available = true → run_powershell r dllNow o = run_powershell_body r o) ∧
    ((run_powershell_body r o).1.dll_available = r.dll_available) ∧
    (∀ d se, o = HelperOutcome.completed (HelperStdout.valid d) se →
        (r.dll_available = true ∨ dllNow = true) →
        (run_powershell r dllNow o).2 = some d) := by
  refine ⟨rfl, ?_, ?_, ?_, ?_, ?_⟩
  · intro ha hn
    simp [run_powershell, ha, hn]
  · intro ha hn
    simp [run_powershell, ha, hn]
  · intro ha
    simp [run_powershell, ha]
  · cases o with
    | timeout => rfl
    | exn m => rfl
    | completed stdout stderr =>
      cases stdout with
      | empty =>
        simp only [run_powershell_body]
        split <;> rfl
      | invalid m => rfl
      | valid d => rfl
  · intro d se ho hdll
    subst ho
    rcases hdll with ha | hn
    · simp [run_powershell, ha, run_powershell_body]
    · by_cases ha : r.dll_available = true <;>
        simp [run_powershell, ha, hn, run_powershell_body]

/-- Helper outcome for claim C8's witness: a valid helper document. -/
def c8wOutcome : HelperOutcome :=
  HelperOutcome.completed (HelperStdout.valid (JVal.bool true)) "ignored"

/-- Witness for C8: with the DLL initially cached as absent but present
at poll time, the poll proceeds and returns the helper's document. -/
theorem claim_C8_witness :
    run_powershell { last_error := none, dll_available := false } true c8wOutcome
        = run_powershell_body { last_error := none, dll_available := true }
            c8wOutcome ∧
    (run_powershell { last_error := none, dll_available := false } true
        c8wOutcome).2 = some (JVal.bool true) :=
  ⟨(claim_C8_dll_cache ⟨none, false⟩ true c8wOutcome).2.2.1 rfl rfl,
   (claim_C8_dll_cache ⟨none, false⟩ true c8wOutcome).2.2.2.2.2
     (JVal.bool true) "ignored" rfl (Or.inr rfl)⟩

theorem except_ok_bind {e a b : Type} (x : a) (f : a → Except e b) :
    (Except.ok x : Except e a) >>= f = f x := rfl

theorem isObj_exists (v : JVal) (h : isObj v = true) : ∃ gs, v = JVal.obj gs := by
  cases v <;> simp [isObj] at h ⊢

theorem isArrOfObjs_exists (v : JVal) (h : isArrOfObjs v = true) :
    ∃ xs, v = JVal.arr xs ∧ xs.all isObj = true := by
  cases v <;> simp [isArrOfObjs] at h ⊢
  exact h

theorem buildSsds_ok (items : List JVal) (h : items.all isObj = true) :
    ∃ l, buildSsds items = Except.ok l ∧ l.all hasTemp = true := by
  induction items with
  | nil => exact ⟨[], rfl, rfl⟩
  | cons x rest ih =>
    simp only [List.all_cons, Bool.and_eq_true] at h
    obtain ⟨hx, hrest⟩ := h
    obtain ⟨l, hl, hall⟩ := ih hrest
    obtain ⟨fs, rfl⟩ := isObj_exists x hx
    cases hv : (jobjGet fs "temp").getD JVal.null with
    | null =>
      refine ⟨l, ?_, hall⟩
      simp only [buildSsds, pyGet, hv, except_ok_bind]
      exact hl
    | bool b =>
      refine ⟨⟨(jobjGet fs "name").getD (JVal.str "SSD"), JVal.bool b⟩ :: l, ?_, ?_⟩
      · simp only [buildSsds, pyGet, hv, except_ok_bind, hl]
      · simp [List.all_cons, hasTemp, hall]
    | num q =>
      refine ⟨⟨(jobjGet fs "name").getD (JVal.str "SSD"), JVal.num q⟩ :: l, ?_, ?_⟩
      · simp only [buildSsds, pyGet, hv, except_ok_bind, hl]
      · simp [List.all_cons, hasTemp, hall]
    | str s2 =>
      refine ⟨⟨(jobjGet fs "name").getD (JVal.str "SSD"), JVal.str s2⟩ :: l, ?_, ?_⟩
      · simp only [buildSsds, pyGet, hv, except_ok_bind, hl]
      · simp [List.all_cons, hasTemp, hall]
    | arr xs =>
      refine ⟨⟨(jobjGet fs "name").getD (JVal.str "SSD"), JVal.arr xs⟩ :: l, ?_, ?_⟩
      · simp only [buildSsds, pyGet, hv, except_ok_bind, hl]
      · simp [List.all_cons, hasTemp, hall]
    | obj fs2 =>
      refine ⟨⟨(jobjGet fs "name").getD (JVal.str "SSD"), JVal.obj fs2⟩ :: l, ?_, ?_⟩
      · simp only [buildSsds, pyGet, hv, except_ok_bind, hl]
      · simp [List.all_cons, hasTemp, hall]

theorem pyTruthy_false_of_not (d : JVal) (h : ¬ pyTruthy d = true) :
    pyTruthy d = false := by
  cases hp : pyTruthy d
  · rfl
  · exact absurd hp h

theorem get_temperatures_body_ok (d : JVal) (h : safeDoc d = true) :
    ∃ res, get_temperatures_body d = Except.ok res ∧
      ∀ rt, res = some rt → rt.ssds.all hasTemp = true := by
  by_cases hp : pyTruthy d = true
  · cases d with
    | null => simp [pyTruthy] at hp
    | bool b =>
      exfalso
      simp [safeDoc, hp] at h
    | num q =>
      exfalso
      simp [safeDoc, hp] at h
    | str s2 =>
      exfalso
      simp [safeDoc, hp] at h
    | arr xs =>
      exfalso
      simp [safeDoc, hp] at h
    | obj fs =>
      by_cases hs : pyTruthy ((jobjGet fs "success").getD JVal.null) = true
      · have hws : wellShapedDoc (JVal.obj fs) = true := by
          simp only [safeDoc, hp, hs, Bool.not_true, Bool.false_or] at h
          exact h
        simp only [wellShapedDoc, Bool.and_eq_true] at hws
        obtain ⟨⟨hcpu, hgpu⟩, hssds⟩ := hws
        obtain ⟨cfs, hcv⟩ := isObj_exists _ hcpu
        obtain ⟨gfs, hgv⟩ := isObj_exists _ hgpu
        obtain ⟨xs, hav, hxs⟩ := isArrOfObjs_exists _ hssds
        obtain ⟨l, hB, hAll⟩ := buildSsds_ok xs hxs
        refine ⟨some ⟨(jobjGet cfs "temp").getD JVal.null,
                      (jobjGet cfs "name").getD (JVal.str "CPU"),
                      (jobjGet gfs "temp").getD JVal.null,
                      (jobjGet gfs "name").getD (JVal.str "GPU"), l⟩, ?_, ?_⟩
        · simp only [get_temperatures_body, pyGet, hp, Bool.not_true,
            Bool.false_eq_true, if_false, except_ok_bind, hs, hcv, hgv, hav,
            pyIter, hB]
        · intro rt hrt
          cases hrt
          exact hAll
      · refine ⟨none, ?_, by intro rt hrt; cases hrt⟩
        have hs' := pyTruthy_false_of_not _ hs
        simp only [get_temperatures_body, pyGet, hp, Bool.not_true,
          Bool.false_eq_true, if_false, except_ok_bind, hs', Bool.not_false,
          if_true]
  · have hp' := pyTruthy_false_of_not _ hp
    refine ⟨none, ?_, by intro rt hrt; cases hrt⟩
    simp only [get_temperatures_body, hp', Bool.not_false, if_true]

/-- Specification-side description of the `last_error` value after one
`get_temperatures` call with previous value `prev`: a cause is recorded
on timeout, on other exceptions, on JSON decode errors, and (from
stderr) on empty output with non-empty stderr; empty output with empty
stderr, and every parsed document (including `success: false`), leave
it unchanged. -/
def lastErrorSpec (prev : Option String) : HelperOutcome → Option String
  | HelperOutcome.timeout => some "Timeout reading temperature"
  | HelperOutcome.exn m => some m
  | HelperOutcome.completed HelperStdout.empty se =>
      if se.trim = "" then prev else some se.trim
  | HelperOutcome.completed (HelperStdout.invalid m) _ =>
      some ("JSON Parse Error: " ++ m)
  | HelperOutcome.completed (HelperStdout.valid _) _ => prev

/-- Outcomes in which the helper handed back a parsed document. -/
def gotDocument : HelperOutcome → Bool
  | HelperOutcome.completed (HelperStdout.valid _) _ => true
  | _ => false

theorem claim_C7_amended (r : ReaderState) (dllNow : Bool) (o : HelperOutcome)
    (hdll : r.dll_available = true ∨ dllNow = true)
    (hsafe : ∀ d se, o = HelperOutcome.completed (HelperStdout.valid d) se →
        safeDoc d = true) :
    ∃ res : Option RawTemps,
      (get_temperatures r dllNow o).2 = Except.ok res ∧
      (∀ rt, res = some rt → rt.ssds.all hasTemp = true) ∧
      (get_temperatures r dllNow o).1.last_error = lastErrorSpec r.last_error o ∧
      (gotDocument o = false → res = none) := by
  have key : ∃ r2 : ReaderState, r2.last_error = r.last_error ∧
      run_powershell r dllNow o = run_powershell_body r2 o := by
    cases hav : r.dll_available with
    | true => exact ⟨r, rfl, by simp [run_powershell, hav]⟩
    | false =>
      have hn : dllNow = true := by
        rcases hdll with h | h
        · rw [hav] at h; cases h
        · exact h
      exact ⟨{ r with dll_available := true }, rfl,
        by simp [run_powershell, hav, hn]⟩
  obtain ⟨r2, hle, hrw⟩ := key
  have hget : get_temperatures r dllNow o
      = ((run_powershell_body r2 o).1,
         match (run_powershell_body r2 o).2 with
         | none => Except.ok none
         | some d => get_temperatures_body d) := by
    rw [get_temperatures, hrw]
    cases hx : (run_powershell_body r2 o).2 <;> simp [hx]
  cases o with
  | timeout =>
    refine ⟨none, ?_, ?_, ?_, fun _ => rfl⟩
    · rw [hget]; rfl
    · intro rt hrt; cases hrt
    · rw [hget]; rfl
  | exn m =>
    refine ⟨none, ?_, ?_, ?_, fun _ => rfl⟩
    · rw [hget]; rfl
    · intro rt hrt; cases hrt
    · rw [hget]; rfl
  | completed stdout se =>
    cases stdout with
    | empty =>
      by_cases ht : se.trim = ""
      · refine ⟨none, ?_, ?_, ?_, fun _ => rfl⟩
        · rw [hget]; simp [run_powershell_body, ht]
        · intro rt hrt; cases hrt
        · rw [hget]; simp [run_powershell_body, lastErrorSpec, ht, hle]
      · refine ⟨none, ?_, ?_, ?_, fun _ => rfl⟩
        · rw [hget]; simp [run_powershell_body, ht]
        · intro rt hrt; cases hrt
        · rw [hget]; simp [run_powershell_body, lastErrorSpec, ht]
    | invalid m =>
      refine ⟨none, ?_, ?_, ?_, fun _ => rfl⟩
      · rw [hget]; rfl
      · intro rt hrt; cases hrt
      · rw [hget]; rfl
    | valid d =>
      have hsd : safeDoc d = true := hsafe d se rfl
      obtain ⟨res, hok, hall⟩ := get_temperatures_body_ok d hsd
      refine ⟨res, ?_, hall, ?_, fun hf => by cases hf⟩
      · rw [hget]; exact hok
      · rw [hget]; exact hle

/-- C7 counterexample, two parts.  First: `get_temperatures` DOES raise
to its caller on some helper outcomes — when stdout is the valid JSON
document `5`, `data.get('success')` raises `AttributeError` out of
`get_temperatures` (modelled as `Except.error`).  Second: on a
non-success status (`{"success": false}`) the empty reading is returned
but NO human-readable cause is recorded (`last_error` stays `None`),
contrary to the claim. -/
theorem claim_C7_counterexample :
    (get_temperatures { last_error := none, dll_available := true } true
        (HelperOutcome.completed (HelperStdout.valid (JVal.num 5)) "")).2
      = Except.error "AttributeError: object has no attribute get" ∧
    (get_temperatures { last_error := none, dll_available := true } true
        (HelperOutcome.completed
          (HelperStdout.valid (JVal.obj [("success", JVal.bool false)])) "")).2
      = Except.ok none ∧
    (get_temperatures { last_error := none, dll_available := true } true
        (HelperOutcome.completed
          (HelperStdout.valid (JVal.obj [("success", JVal.bool false)])) "")).1.last_error
      = none :=
  ⟨rfl, rfl, rfl⟩

/-- Helper document for claim C7's witness: a successful reading with a
CPU sensor, no GPU key, and two storage entries of which one has no
temperature. -/
def c7wDoc : JVal :=
  JVal.obj [("success", JVal.bool true),
            ("cpu", JVal.obj [("temp", JVal.num 55),
                              ("name", JVal.str "i7-12700KF")]),
            ("ssds", JVal.arr
              [JVal.obj [("name", JVal.str "SSD one"), ("temp", JVal.num 40)],
               JVal.obj [("name", JVal.str "SSD two")]])]

/-- Helper outcome for claim C7's witness. -/
def c7wOutcome : HelperOutcome :=
  HelperOutcome.completed (HelperStdout.valid c7wDoc) ""

/-- Witness for C7's amended theorem: on a well-shaped successful
document the poll completes without touching `last_error`. -/
theorem claim_C7_witness :
    (get_temperatures { last_error := none, dll_available := true } true
        c7wOutcome).1.last_error = none := by
  obtain ⟨res, hok, hall, hle, hnone⟩ :=
    claim_C7_amended { last_error := none, dll_available := true } true
      c7wOutcome (Or.inl rfl)
      (by
        intro d se h
        injection h with h1 h2
        injection h1 with h1
        subst h1
        decide)
  exact hle
